import Mathlib

/-!
Verification of the SOFA scoring engine (FHIR-Data-Enrichment).

Shallow embedding of `src/scoring.py`, `src/utils.py`, `src/fhir_io.py` and
`src/main.py`. Physiological values and infusion rates are modelled as
rationals (`ℚ`), timestamps as integers (seconds), Python `None` as
`Option.none`, and fallible operations as `Option`-valued functions.
-/

namespace SOFA

/-! ## Character-level string helpers

The source relies on Python's `str.strip`, `str.lower`, `in` (substring
test), `endswith` and `replace`; they are modelled structurally on the
character list of a string. -/

def isSpaceChar (c : Char) : Bool := c = ' ' || c = '\t' || c = '\n' || c = '\r'

/-- Model of Python `str.strip()` on a character list. -/
def trimChars (l : List Char) : List Char :=
  ((l.dropWhile isSpaceChar).reverse.dropWhile isSpaceChar).reverse

/-- Model of Python `str.lower()` on a character list. -/
def lowerChars (l : List Char) : List Char := l.map Char.toLower

/-- `prefixEq n h` is true when `n` is an initial segment of `h`. -/
def prefixEq : List Char → List Char → Bool
  | [], _ => true
  | _ :: _, [] => false
  | a :: as, b :: bs => a == b && prefixEq as bs

/-- Model of Python's substring test `needle in hay`. -/
def hasSub (needle : List Char) : List Char → Bool
  | [] => needle.isEmpty
  | c :: cs => prefixEq needle (c :: cs) || hasSub needle cs

/-! ## Organ sub-score engine — source: src/scoring.py -/

/-- Source: src/scoring.py lines 5-24 (`score_resp`). Values are rationals,
so the source's `isfinite` guard (which only rejects NaN/infinity floats)
always passes for a present value. -/
def score_resp (pao2_fio2 spo2_fio2 : Option ℚ) (on_resp_support : Bool) :
    Option ℤ :=
  match pao2_fio2 with
  | some pf =>
    if pf ≥ 400 then some 0
    else if pf < 400 ∧ pf ≥ 300 then some 1
    else if pf < 300 ∧ pf ≥ 200 then some 2
    else if pf < 200 ∧ pf ≥ 100 then some 3
    else if pf < 100 then some 4
    else none
  | none =>
    match spo2_fio2 with
    | none => none
    | some sf =>
      if sf > 302 then some 0
      else if sf < 302 ∧ sf ≥ 221 then some 1
      else if sf < 221 ∧ sf ≥ 142 then some 2
      else if sf < 142 then some (if on_resp_support then 3 else 2)
      else if sf < 67 then some (if on_resp_support then 4 else 3)
      else none

/-- Source: src/scoring.py lines 26-34 (`score_coag`). -/
def score_coag (platelets : Option ℚ) : Option ℤ :=
  match platelets with
  | none => none
  | some v =>
    if v ≥ 150 then some 0
    else if v < 150 ∧ v ≥ 100 then some 1
    else if v < 100 ∧ v ≥ 50 then some 2
    else if v < 50 ∧ v ≥ 20 then some 3
    else if v < 20 then some 4
    else none

/-- Source: src/scoring.py lines 36-44 (`score_liver`). -/
def score_liver (bili_mg_dl : Option ℚ) : Option ℤ :=
  match bili_mg_dl with
  | none => none
  | some v =>
    if v < 1.2 then some 0
    else if 1.2 ≤ v ∧ v ≤ 1.9 then some 1
    else if 2.0 ≤ v ∧ v ≤ 5.9 then some 2
    else if 6.0 ≤ v ∧ v ≤ 11.9 then some 3
    else if v ≥ 12.0 then some 4
    else none

/-- A pressor dictionary: each field is the dose rate for one vasoactive
drug, `none` when the key is absent (or mapped to `None`). -/
structure Pressor where
  dobutamine : Option ℚ
  dopamine : Option ℚ
  norepinephrine : Option ℚ
  epinephrine : Option ℚ

def optGt (x : Option ℚ) (c : ℚ) : Bool :=
  match x with
  | some v => decide (c < v)
  | none => false

def optLt (x : Option ℚ) (c : ℚ) : Bool :=
  match x with
  | some v => decide (v < c)
  | none => false

/-- `optInIcc x a b`: the value is present and lies in the closed interval. -/
def optInIcc (x : Option ℚ) (a b : ℚ) : Bool :=
  match x with
  | some v => decide (a ≤ v ∧ v ≤ b)
  | none => false

/-- `optInIoc x a b`: the value is present and lies in the left-open
right-closed interval. -/
def optInIoc (x : Option ℚ) (a b : ℚ) : Bool :=
  match x with
  | some v => decide (a < v ∧ v ≤ b)
  | none => false

/-- Source: src/scoring.py lines 46-62 (`score_cardio`). `pressor = none`
models both an absent and an empty pressor dict (`if pressor:` in the
source is false in both cases, and entering the block with every key
absent reaches the same MAP fallback). -/
def score_cardio (map_mmHg : Option ℚ) (pressor : Option Pressor) : Option ℤ :=
  let fallback : Option ℤ :=
    match map_mmHg with
    | none => none
    | some m => if m ≥ 70 then some 0 else some 1
  match pressor with
  | none => fallback
  | some p =>
    match p.dobutamine with
    | some _ => some 2
    | none =>
      if optGt p.dopamine 15 || optGt p.norepinephrine 0.1 ||
          optGt p.epinephrine 0.1 then some 4
      else if optInIcc p.dopamine 5.1 15 || optInIoc p.norepinephrine 0 0.1 ||
          optInIoc p.epinephrine 0 0.1 then some 3
      else if optLt p.dopamine 5 then some 2
      else fallback

/-- Source: src/scoring.py lines 64-72 (`score_cns`). -/
def score_cns (gcs_total : Option ℚ) : Option ℤ :=
  match gcs_total with
  | none => none
  | some v =>
    if v = 15 then some 0
    else if 13 ≤ v ∧ v ≤ 14 then some 1
    else if 10 ≤ v ∧ v ≤ 12 then some 2
    else if 6 ≤ v ∧ v ≤ 9 then some 3
    else if v < 6 then some 4
    else none

/-- Source: src/scoring.py lines 74-82 (`score_renal`). -/
def score_renal (creatinine_mg_dl : Option ℚ) : Option ℤ :=
  match creatinine_mg_dl with
  | none => none
  | some v =>
    if v < 1.2 then some 0
    else if 1.2 ≤ v ∧ v ≤ 1.9 then some 1
    else if 2.0 ≤ v ∧ v ≤ 3.4 then some 2
    else if 3.5 ≤ v ∧ v ≤ 4.9 then some 3
    else if v ≥ 5.0 then some 4
    else none

/-! ## Unit and time helpers — source: src/utils.py -/

/-- Loop body of `latest_within` (src/utils.py lines 26-29): keep the
record with the larger timestamp when the new record lies in
`[window_start, t]`. The accumulator is the `(latest_t, latest_val)` pair
of the source loop, `none` before any qualifying record is seen. -/
def lwStep (ws t : ℤ) (acc : Option (ℤ × ℚ)) (rv : ℤ × ℚ) : Option (ℤ × ℚ) :=
  if ws ≤ rv.1 ∧ rv.1 ≤ t then
    match acc with
    | none => some rv
    | some lp => if lp.1 < rv.1 then some rv else acc
  else acc

/-- Source: src/utils.py lines 19-30 (`latest_within`). Timestamps are
integer seconds; `timedelta(hours=window_hours)` is `3600 * window_hours`
seconds. -/
def latest_within (records : List (ℤ × ℚ)) (t : ℤ) (window_hours : ℤ) :
    Option ℚ :=
  (records.foldl (lwStep (t - 3600 * window_hours) t) none).map Prod.snd

/-! ### Time parsing — source: src/utils.py lines 5-14 -/

/-- A parsed instant: calendar fields plus an optional UTC offset in
minutes (`none` = naive datetime, no timezone attached). -/
structure DateTimeM where
  year : ℕ
  month : ℕ
  day : ℕ
  hour : ℕ
  minute : ℕ
  second : ℕ
  tzOffsetMin : Option ℤ
deriving DecidableEq

/-- Parse exactly `k` decimal digits into a number, returning the rest. -/
def parseDigits : ℕ → List Char → Option (ℕ × List Char)
  | 0, cs => some (0, cs)
  | _ + 1, [] => none
  | k + 1, c :: cs =>
    if c.isDigit then
      match parseDigits k cs with
      | some (n, rest) => some ((c.toNat - 48) * 10 ^ k + n, rest)
      | none => none
    else none

def expectChar (c : Char) : List Char → Option (List Char)
  | [] => none
  | d :: cs => if d = c then some cs else none

/-- Parse `YYYY-MM-DD`, with calendar validity simplified to day ≤ 31. -/
def parseDatePart (cs : List Char) : Option ((ℕ × ℕ × ℕ) × List Char) := do
  let (y, cs) ← parseDigits 4 cs
  let cs ← expectChar '-' cs
  let (mo, cs) ← parseDigits 2 cs
  let cs ← expectChar '-' cs
  let (d, cs) ← parseDigits 2 cs
  if 1 ≤ mo ∧ mo ≤ 12 ∧ 1 ≤ d ∧ d ≤ 31 then return ((y, mo, d), cs)
  else none

/-- Parse `HH:MM:SS`. -/
def parseClockPart (cs : List Char) : Option ((ℕ × ℕ × ℕ) × List Char) := do
  let (h, cs) ← parseDigits 2 cs
  let cs ← expectChar ':' cs
  let (mi, cs) ← parseDigits 2 cs
  let cs ← expectChar ':' cs
  let (s, cs) ← parseDigits 2 cs
  if h ≤ 23 ∧ mi ≤ 59 ∧ s ≤ 59 then return ((h, mi, s), cs)
  else none

/-- Modelled from the Python standard library contract:
`datetime.strptime(ts, "%Y-%m-%dT%H:%M:%SZ")` — exactly the Zulu format
of `ISO_FMT` (src/utils.py line 5). The result is naive, as strptime's is
before the source applies `.replace(tzinfo=timezone.utc)`. -/
def strptimeIsoZ (ts : String) : Option DateTimeM := do
  let ((y, mo, d), cs) ← parseDatePart ts.data
  let cs ← expectChar 'T' cs
  let ((h, mi, s), cs) ← parseClockPart cs
  let cs ← expectChar 'Z' cs
  if cs.isEmpty then return ⟨y, mo, d, h, mi, s, none⟩
  else none

/-- Modelled from the Python standard library contract (simplified):
`datetime.fromisoformat` accepting `YYYY-MM-DD[THH:MM:SS[(+|-)HH:MM]]`;
a trailing offset makes the result offset-aware, otherwise it is naive;
any other shape fails (raises in Python, `none` here). -/
def fromisoformat (ts : String) : Option DateTimeM := do
  let ((y, mo, d), cs) ← parseDatePart ts.data
  match cs with
  | [] => return ⟨y, mo, d, 0, 0, 0, none⟩
  | c :: cs1 =>
    if c = 'T' ∨ c = ' ' then do
      let ((h, mi, s), cs2) ← parseClockPart cs1
      match cs2 with
      | [] => return ⟨y, mo, d, h, mi, s, none⟩
      | sgn :: cs3 =>
        if sgn = '+' ∨ sgn = '-' then do
          let (oh, cs4) ← parseDigits 2 cs3
          let cs4 ← expectChar ':' cs4
          let (om, cs5) ← parseDigits 2 cs4
          if cs5.isEmpty ∧ oh ≤ 23 ∧ om ≤ 59 then
            return ⟨y, mo, d, h, mi, s,
              some ((if sgn = '-' then -1 else 1) * (60 * oh + om))⟩
          else none
        else none
    else none

/-- Model of Python `ts.replace('Z', '+00:00')` (every occurrence). -/
def replaceZ : List Char → List Char
  | [] => []
  | c :: cs =>
    if c = 'Z' then '+' :: '0' :: '0' :: ':' :: '0' :: '0' :: replaceZ cs
    else c :: replaceZ cs

/-- Model of Python `ts.endswith('Z')`. -/
def endsWithZ (ts : String) : Bool := ts.data.getLast? == some 'Z'

/-- Model of `.replace(tzinfo=timezone.utc)` (src/utils.py line 11). -/
def utcify (dt : DateTimeM) : DateTimeM :=
  DateTimeM.mk dt.year dt.month dt.day dt.hour dt.minute dt.second (some 0)

/-- Source: src/utils.py lines 7-14 (`parse_time`). The `try` body parses
`Z`-suffixed strings with `strptime` + `.replace(tzinfo=utc)` and others
with `fromisoformat` after replacing `Z` by `+00:00`; the bare `except:`
handler re-runs the same `fromisoformat` fallback *outside* any handler.
A `none` result therefore models an exception propagating to the caller. -/
def parse_time (ts : String) : Option DateTimeM :=
  match (if endsWithZ ts then (strptimeIsoZ ts).map utcify
      else fromisoformat ⟨replaceZ ts.data⟩) with
  | some dt => some dt
  | none => fromisoformat ⟨replaceZ ts.data⟩

/-- Source: src/utils.py lines 36-39: `unit` is truthy and
`unit.strip().lower()` is one of `%`, `percent`, `perc`. -/
def isPercentUnit (unit : Option String) : Bool :=
  match unit with
  | none => false
  | some u =>
    if u.data.isEmpty then false
    else
      let l := lowerChars (trimChars u.data)
      l == "%".data || l == "percent".data || l == "perc".data

/-- Source: src/utils.py lines 32-43 (`norm_fio2`), value-present path. -/
def normFio2Val (v : ℚ) (unit : Option String) : ℚ :=
  if isPercentUnit unit then v / 100
  else if v > 1.5 then v / 100
  else v

/-- Source: src/utils.py lines 32-43 (`norm_fio2`): `None` passes through,
otherwise the value-present path always yields a value. -/
def norm_fio2 (val : Option ℚ) (unit : Option String) : Option ℚ :=
  match val with
  | none => none
  | some v => some (normFio2Val v unit)

/-! ## Metric extractor — source: src/fhir_io.py -/

/-- Source: src/fhir_io.py lines 41-51 (`LOINC_MAP`), keeping only the
canonical metric name of each entry — the unit in the source table is
never read (`LOINC_MAP[code][0]`). -/
def LOINC_MAP : List (String × String) :=
  [("2703-7", "PaO2"), ("3150-0", "FiO2"), ("59408-5", "SpO2"),
   ("2708-6", "SpO2"), ("8478-0", "MAP"), ("777-3", "Platelets"),
   ("1975-2", "Bilirubin"), ("2160-0", "Creatinine"), ("9269-2", "GCS")]

/-- Source: src/fhir_io.py lines 54-63 (`DISPLAY_KEYWORDS`). -/
def DISPLAY_KEYWORDS : List (String × List String) :=
  [("PaO2", ["pao2", "partial pressure oxygen", "arterial oxygen"]),
   ("FiO2", ["fio2", "inspired oxygen", "fraction of inspired oxygen",
     "inhaled oxygen"]),
   ("SpO2", ["spo2", "oxygen saturation", "pulse oximetry"]),
   ("MAP", ["map", "mean arterial pressure"]),
   ("Platelets", ["platelet"]),
   ("Bilirubin", ["bilirubin"]),
   ("Creatinine", ["creatinine"]),
   ("GCS", ["glasgow coma", "gcs total", "gcs score"])]

/-- Python `a or b` on two optional strings (`''` is falsy). -/
def orStr (a b : Option String) : Option String :=
  match a with
  | some s => if s.data.isEmpty then b else some s
  | none => b

/-- Python `(x or '')`. -/
def strOrEmpty (a : Option String) : String :=
  match a with
  | some s => s
  | none => ""

/-- One raw FHIR Observation resource, restricted to the fields
`_obs_entry_to_row` reads: the `(code, display)` pairs of `code.coding`,
`code.text`, the `valueQuantity` value (already through `safe_float`,
hence `Option ℚ`), its `unit` and `code`, and the `effectiveDateTime`
and `issued` timestamp strings. -/
structure RawObs where
  codings : List (Option String × Option String)
  codeText : Option String
  vqValue : Option ℚ
  vqUnit : Option String
  vqCode : Option String
  effectiveDateTime : Option String
  issued : Option String

/-- Source: src/fhir_io.py lines 70-72: the code of the first coding
entry, `None` when the coding list is empty. -/
def headCode (codings : List (Option String × Option String)) :
    Option String :=
  match codings with
  | [] => none
  | p :: _ => p.1

/-- Source: src/fhir_io.py line 73: `codings[0].get('display') or
o.get('code', \x7b\x7d).get('text')`, `None` when the coding list is empty. -/
def headDisplay (o : RawObs) : Option String :=
  match o.codings with
  | [] => none
  | p :: _ => orStr p.2 o.codeText

/-- Source: src/fhir_io.py line 80: the lower-cased haystack
`(display or '') + ' ' + (code.text or '')`. -/
def obsText (o : RawObs) : List Char :=
  lowerChars ((strOrEmpty (headDisplay o)).data ++ ' ' ::
    (strOrEmpty o.codeText).data)

/-- `LOINC_MAP` lookup (src/fhir_io.py lines 76-77). -/
def lookupLoinc (c : String) : Option String :=
  (LOINC_MAP.find? (fun p => p.1 == c)).map Prod.snd

/-- Keyword fallback (src/fhir_io.py lines 80-84): the first table entry
one of whose keywords occurs in the haystack. -/
def keywordMetric (text : List Char) : Option String :=
  (DISPLAY_KEYWORDS.find? (fun p => p.2.any (fun k => hasSub k.data text))).map
    Prod.fst

/-- Source: src/fhir_io.py lines 75-84: LOINC lookup when the code is
present and known, otherwise keyword fallback on the display text. -/
def classifyMetric (code : Option String) (text : List Char) :
    Option String :=
  match code with
  | some c =>
    match lookupLoinc c with
    | some m => some m
    | none => keywordMetric text
  | none => keywordMetric text

/-- One row of the tidy observation frame produced by
`observations_to_df` (the constant `patient_id` column is omitted). -/
structure FhirRow where
  metric : String
  value : ℚ
  unit : Option String
  effective : DateTimeM

/-- Source: src/fhir_io.py lines 66-101 (`_obs_entry_to_row`). A record
with no classified metric, no numeric value or a falsy timestamp is
dropped. The source calls `parse_time` on the timestamp string, which
raises on a string even the fallback cannot parse; that case is modelled
as a dropped record here (no claim exercises it). -/
def _obs_entry_to_row (o : RawObs) : Option FhirRow :=
  (classifyMetric (headCode o.codings) (obsText o)).bind fun m =>
    o.vqValue.bind fun v =>
      (orStr o.effectiveDateTime o.issued).bind fun t =>
        if t.data.isEmpty then none
        else
          (parse_time t).bind fun dt =>
            some ⟨m, v, orStr o.vqUnit o.vqCode, dt⟩

/-- Monotone simplified epoch for a parsed instant (months as 31 days),
used only to compare nearby timestamps in the derived-MAP join. -/
def dtToSec (dt : DateTimeM) : ℤ :=
  ((((dt.year * 12 + dt.month) * 31 + dt.day) * 24 + dt.hour) * 60
      + dt.minute) * 60 + dt.second -
    (match dt.tzOffsetMin with
     | some o => 60 * o
     | none => 0)

/-- Model of `pandas.merge_asof(..., direction='nearest')` for one left
timestamp: the right-hand pair whose timestamp is nearest. -/
def nearestBy (t : ℤ) (dias : List (ℤ × ℚ)) : Option (ℤ × ℚ) :=
  dias.foldl
    (fun acc p =>
      match acc with
      | none => some p
      | some q => if |p.1 - t| < |q.1 - t| then some p else acc)
    none

/-- Source: src/fhir_io.py lines 120-139: the derived-MAP body — rows
whose `metric` equals the raw code `'8480-6'` are joined to rows whose
`metric` equals `'8462-4'` by nearest timestamp within 5 minutes, and
`(sys + 2*dia)/3` is synthesized at the systolic timestamp. -/
def deriveMAP (rows : List FhirRow) : List FhirRow :=
  let diaRows := (rows.filter (fun r => r.metric = "8462-4")).map
    (fun d => (dtToSec d.effective, d.value))
  (rows.filter (fun r => r.metric = "8480-6")).filterMap
    (fun s =>
      match nearestBy (dtToSec s.effective) diaRows with
      | some (dt, dv) =>
        if |dt - dtToSec s.effective| ≤ 300 then
          some ⟨"MAP", (s.value + 2 * dv) / 3, some "mmHg", s.effective⟩
        else none
      | none => none)

/-- Source: src/fhir_io.py lines 104-141 (`observations_to_df`). The
source sorts the rows by `(patient_id, effective)` before the derivation
branch; the sort permutes rows and is omitted here — every property
stated below is about membership. The branch condition is the source's
literal test of the canonical `metric` column against the raw LOINC
codes `'8480-6'` / `'8462-4'`. -/
def observations_to_df (obs : List RawObs) : List FhirRow :=
  let rows := obs.filterMap _obs_entry_to_row
  if rows.any (fun r => r.metric = "8480-6" ∨ r.metric = "8462-4") then
    rows ++ deriveMAP rows
  else rows

/-! ## Row assembler / orchestrator — source: src/main.py -/

/-- Source: src/main.py line 28. -/
def DEFAULT_FIO2 : ℚ := 0.21

/-- One row of the tidy observation frame `obs_df` as consumed by
`compute_patient_sofa` (src/main.py lines 49-61). -/
structure ObsRow where
  metric : String
  value : ℚ
  unit : Option String
  effective : ℤ

/-- Source: src/main.py lines 60-61: the per-metric series zips the
`effective` and `value` columns of the rows for one metric — the `unit`
column is dropped. -/
def seriesFor (m : String) (rows : List ObsRow) : List (ℤ × ℚ) :=
  (rows.filter (fun r => r.metric = m)).map (fun r => (r.effective, r.value))

/-- Per-patient engine input: one `(timestamp, value)` series per metric
(src/main.py lines 49-61, built by `seriesFor`) and the pressor
dictionary keyed by exact timestamp (lines 64-71, queried at line 92 with
`pressor_times.get(t, None)`). -/
structure PatientData where
  pao2 : List (ℤ × ℚ)
  spo2 : List (ℤ × ℚ)
  fio2 : List (ℤ × ℚ)
  mapv : List (ℤ × ℚ)
  plate : List (ℤ × ℚ)
  bili : List (ℤ × ℚ)
  creat : List (ℤ × ℚ)
  gcs : List (ℤ × ℚ)
  pressorAt : ℤ → Option Pressor

/-- Source: src/main.py lines 86-88: the GCS value actually scored — the
windowed lookup, defaulted to 15 when no observation is in the window. -/
def gcsUsed (d : PatientData) (W t : ℤ) : ℚ :=
  (latest_within d.gcs t W).getD 15

/-- Source: src/main.py lines 79-80: the raw FiO2 value from the window
is normalized with the unit hard-coded to `"%"`; when no FiO2 observation
is in the window the default 0.21 is used. -/
def fio2Used (d : PatientData) (W t : ℤ) : ℚ :=
  match latest_within d.fio2 t W with
  | some v => normFio2Val v (some "%")
  | none => DEFAULT_FIO2

/-- Source: src/main.py line 90: `pf = pao2 / fio2` when PaO2 is known
and `fio2` is truthy (non-zero). -/
def pfRatio (d : PatientData) (W t : ℤ) : Option ℚ :=
  match latest_within d.pao2 t W with
  | some p => if fio2Used d W t ≠ 0 then some (p / fio2Used d W t) else none
  | none => none

/-- Source: src/main.py line 91: `sf = spo2 / fio2`, same shape as `pf`. -/
def sfRatio (d : PatientData) (W t : ℤ) : Option ℚ :=
  match latest_within d.spo2 t W with
  | some s => if fio2Used d W t ≠ 0 then some (s / fio2Used d W t) else none
  | none => none

/-- Source: src/main.py lines 94-108: the `components` dict of one
candidate timestamp, in source order. -/
def subScores (d : PatientData) (W t : ℤ) : List (String × Option ℤ) :=
  [("Resp", score_resp (pfRatio d W t) (sfRatio d W t) false),
   ("Coag", score_coag (latest_within d.plate t W)),
   ("Liver", score_liver (latest_within d.bili t W)),
   ("Cardio", score_cardio (latest_within d.mapv t W) (d.pressorAt t)),
   ("CNS", score_cns (some (gcsUsed d W t))),
   ("Renal", score_renal (latest_within d.creat t W))]

/-- Source: src/main.py line 112: names of the unknown sub-scores. -/
def missingSystems (d : PatientData) (W t : ℤ) : List String :=
  ((subScores d W t).filter (fun c => c.2.isNone)).map Prod.fst

/-- Source: src/main.py lines 110-124: one loop iteration. First result:
the emitted row `(timestamp, total)` or `none` when the timestamp is
discarded (the constant `patient_id` column is omitted). Second result:
the diagnostic naming the missing systems, printed only when at least 3
of 6 are unknown. -/
def sofaAt (d : PatientData) (W t : ℤ) :
    Option (ℤ × ℤ) × Option (List String) :=
  let comps := subScores d W t
  if comps.any (fun c => c.2.isNone) then
    let missing := missingSystems d W t
    (none, if 3 ≤ missing.length then some missing else none)
  else
    (some (t, (comps.filterMap Prod.snd).sum), none)

/-- Source: src/main.py lines 75-125: the emitted rows over the candidate
timestamps. -/
def sofaRows (d : PatientData) (W : ℤ) (times : List ℤ) : List (ℤ × ℤ) :=
  times.filterMap (fun t => (sofaAt d W t).1)

/-! ## Claim transcriptions (spec wording, for refinement comparison) -/

/-- Transcribed from claim C5's wording: the respiratory bands exactly as
the claim lists them, applied in order (first matching band wins); when pf
is known the five pf bands are exhaustive, so the last one is the final
`else`. -/
def respBandsSpec (pf sf : Option ℚ) (support : Bool) : Option ℤ :=
  match pf with
  | some v =>
    if 400 ≤ v then some 0
    else if 300 ≤ v ∧ v < 400 then some 1
    else if 200 ≤ v ∧ v < 300 then some 2
    else if 100 ≤ v ∧ v < 200 then some 3
    else some 4
  | none =>
    match sf with
    | none => none
    | some s =>
      if 302 < s then some 0
      else if 221 ≤ s ∧ s < 302 then some 1
      else if 142 ≤ s ∧ s < 221 then some 2
      else if s < 142 then some (if support then 3 else 2)
      else if s < 67 then some (if support then 4 else 3)
      else none

/-- Transcribed from claim C4's wording: dobutamine present → 2; else
dopamine>15 / norepinephrine>0.1 / epinephrine>0.1 → 4; else dopamine in
the *left-open* interval (5.1, 15] (or ne/epi in (0, 0.1]) → 3; else
dopamine present and < 5 → 2; otherwise fall back to MAP. -/
def cardioClaimSpec (map_mmHg dob dop ne epi : Option ℚ) : Option ℤ :=
  match dob with
  | some _ => some 2
  | none =>
    if optGt dop 15 || optGt ne 0.1 || optGt epi 0.1 then some 4
    else if optInIoc dop 5.1 15 || optInIoc ne 0 0.1 ||
        optInIoc epi 0 0.1 then some 3
    else if optLt dop 5 then some 2
    else
      match map_mmHg with
      | none => none
      | some m => if 70 ≤ m then some 0 else some 1

/-- Claim C4 amended: identical to `cardioClaimSpec` except that the
dopamine band for score 3 is the *closed* interval [5.1, 15], as the
source implements it. -/
def cardioAmendedSpec (map_mmHg dob dop ne epi : Option ℚ) : Option ℤ :=
  match dob with
  | some _ => some 2
  | none =>
    if optGt dop 15 || optGt ne 0.1 || optGt epi 0.1 then some 4
    else if optInIcc dop 5.1 15 || optInIoc ne 0 0.1 ||
        optInIoc epi 0 0.1 then some 3
    else if optLt dop 5 then some 2
    else
      match map_mmHg with
      | none => none
      | some m => if 70 ≤ m then some 0 else some 1

/-! ## Claim theorems: sub-score engine -/

/-- C5: the respiratory sub-score equals the claim's ordered band table —
pf known: ≥400→0, [300,400)→1, [200,300)→2, [100,200)→3, <100→4; pf
unknown: fall back to sf with >302→0, [221,302)→1, [142,221)→2, <142→2 or
3 by the support flag, <67→3 or 4 by the support flag (unreachable, being
listed after <142); both unknown → unknown; and the four quoted examples
hold. -/
theorem C5_resp_bands :
    (∀ pf sf support, score_resp pf sf support = respBandsSpec pf sf support)
    ∧ score_resp (some 250) none false = some 2
    ∧ score_resp (some 450) none false = some 0
    ∧ score_resp none (some 310) false = some 0
    ∧ score_resp none (some 150) false = some 2 := by
  refine ⟨?_, ?_, ?_, ?_, ?_⟩
  · intro pf sf support
    cases pf with
    | some v =>
      simp only [score_resp, respBandsSpec]
      split_ifs <;> simp_all
    | none =>
      cases sf with
      | none => rfl
      | some s =>
        simp only [score_resp, respBandsSpec]
        split_ifs <;> simp_all
  · norm_num [score_resp]
  · norm_num [score_resp]
  · norm_num [score_resp]
  · norm_num [score_resp]

/-- C6: `norm_fio2` — unknown value yields unknown; a percent unit yields
value/100; otherwise a raw value exceeding 1.5 yields value/100; any other
value passes through; and the three quoted examples hold. -/
theorem C6_norm_fio2 :
    (∀ u, norm_fio2 none u = none)
    ∧ (∀ (v : ℚ) (u : Option String), isPercentUnit u = true →
        norm_fio2 (some v) u = some (v / 100))
    ∧ (∀ (v : ℚ) (u : Option String), isPercentUnit u = false → 1.5 < v →
        norm_fio2 (some v) u = some (v / 100))
    ∧ (∀ (v : ℚ) (u : Option String), isPercentUnit u = false → ¬ 1.5 < v →
        norm_fio2 (some v) u = some v)
    ∧ norm_fio2 (some 60) (some "%") = some 0.6
    ∧ norm_fio2 (some 0.35) none = some 0.35
    ∧ norm_fio2 (some 60) none = some 0.6 := by
  have hpc : isPercentUnit (some "%") = true := by decide
  have hnone : isPercentUnit none = false := rfl
  refine ⟨fun _ => rfl, ?_, ?_, ?_, ?_, ?_, ?_⟩
  · intro v u h
    simp [norm_fio2, normFio2Val, h]
  · intro v u h hv
    simp only [norm_fio2, normFio2Val, h, Bool.false_eq_true, if_false]
    rw [if_pos (by exact_mod_cast hv)]
  · intro v u h hv
    simp only [norm_fio2, normFio2Val, h, Bool.false_eq_true, if_false]
    rw [if_neg (by exact_mod_cast hv)]
  · simp only [norm_fio2, normFio2Val, hpc, if_true]
    norm_num
  · simp only [norm_fio2, normFio2Val, hnone, Bool.false_eq_true, if_false]
    norm_num
  · simp only [norm_fio2, normFio2Val, hnone, Bool.false_eq_true, if_false]
    norm_num

/-- C6 witness: the characterization applied at the quoted inputs. -/
theorem C6_norm_fio2_witness :
    (isPercentUnit (some "%") = true ∧
      norm_fio2 (some 60) (some "%") = some (60 / 100))
    ∧ (isPercentUnit none = false ∧ (1.5 : ℚ) < 60 ∧
      norm_fio2 (some 60) none = some (60 / 100))
    ∧ (¬ (1.5 : ℚ) < 0.35 ∧ norm_fio2 (some 0.35) none = some 0.35) :=
  ⟨⟨by decide, C6_norm_fio2.2.1 60 (some "%") (by decide)⟩,
   ⟨rfl, by norm_num, C6_norm_fio2.2.2.1 60 none rfl (by norm_num)⟩,
   ⟨by norm_num, C6_norm_fio2.2.2.2.1 0.35 none rfl (by norm_num)⟩⟩

/-- C4 counterexample: at dopamine = 5.1 (no other pressor, MAP = 80) the
source's closed band `5.1 <= dop <= 15` fires and returns 3, while the
claim's left-open band (5.1, 15] does not fire and its chain falls back to
MAP ≥ 70 → 0; so the claim as stated disagrees with the code at this
input. -/
theorem C4_cardio_counterexample :
    score_cardio (some 80) (some ⟨none, some 5.1, none, none⟩) = some 3
    ∧ cardioClaimSpec (some 80) none (some 5.1) none none = some 0 := by
  constructor
  · simp only [score_cardio, optGt, optInIcc, optInIoc, optLt]
    norm_num
  · simp only [cardioClaimSpec, optGt, optInIcc, optInIoc, optLt]
    norm_num

/-- C4 amended: the cardiovascular sub-score follows the claim's priority
chain with the dopamine band for score 3 taken as the *closed* interval
[5.1, 15]: equality with the amended transcription for every MAP value and
every pressor dict (present or absent), plus the claim's four quoted
examples (dobutamine 1.0 → 2 regardless of MAP; norepinephrine 0.15 → 4;
no pressor and MAP 65 → 1; no pressor and MAP unknown → unknown). -/
theorem C4_cardio_amended :
    (∀ (m : Option ℚ) (p : Pressor),
      score_cardio m (some p) =
        cardioAmendedSpec m p.dobutamine p.dopamine p.norepinephrine
          p.epinephrine)
    ∧ (∀ m : Option ℚ,
      score_cardio m none = cardioAmendedSpec m none none none none)
    ∧ (∀ m : Option ℚ,
      score_cardio m (some ⟨some 1, none, none, none⟩) = some 2)
    ∧ score_cardio none (some ⟨none, none, some 0.15, none⟩) = some 4
    ∧ score_cardio (some 65) none = some 1
    ∧ score_cardio none none = none := by
  refine ⟨?_, ?_, ?_, ?_, ?_, ?_⟩
  · intro m p
    obtain ⟨dob, dop, ne, epi⟩ := p
    cases dob <;> rfl
  · intro m
    simp only [score_cardio, cardioAmendedSpec, optGt, optInIcc, optInIoc,
      optLt, Bool.or_self, Bool.false_or, if_neg Bool.false_ne_true]
  · intro m
    rfl
  · simp only [score_cardio, optGt, optInIcc, optInIoc, optLt]
    norm_num
  · simp only [score_cardio]
    norm_num
  · rfl

/-- C8: each sub-score function returns unknown (never a score) on every
known value outside all of its declared bands — the liver gaps (1.9,2.0),
(5.9,6.0), (11.9,12.0); the renal gaps (1.9,2.0), (3.4,3.5), (4.9,5.0);
the CNS gaps (14,15), (12,13), (9,10) and values above 15; the sf
fallback's uncovered point 302; the pf path and the coagulation bands have
no gap, so those parts of the claim are vacuous. -/
theorem C8_out_of_band_unknown :
    (∀ v : ℚ, (1.9 < v ∧ v < 2.0) ∨ (5.9 < v ∧ v < 6.0) ∨
        (11.9 < v ∧ v < 12.0) → score_liver (some v) = none)
    ∧ (∀ v : ℚ, (1.9 < v ∧ v < 2.0) ∨ (3.4 < v ∧ v < 3.5) ∨
        (4.9 < v ∧ v < 5.0) → score_renal (some v) = none)
    ∧ (∀ v : ℚ, (14 < v ∧ v < 15) ∨ 15 < v ∨ (12 < v ∧ v < 13) ∨
        (9 < v ∧ v < 10) → score_cns (some v) = none)
    ∧ (∀ support, score_resp none (some 302) support = none)
    ∧ score_liver (some 1.95) = none
    ∧ score_renal (some 1.95) = none := by
  refine ⟨?_, ?_, ?_, ?_, ?_, ?_⟩
  · intro v h
    rcases h with ⟨h1, h2⟩ | ⟨h1, h2⟩ | ⟨h1, h2⟩ <;>
      · simp only [score_liver]
        rw [if_neg (by push_neg; linarith),
          if_neg (by rintro ⟨a, b⟩; linarith),
          if_neg (by rintro ⟨a, b⟩; linarith),
          if_neg (by rintro ⟨a, b⟩; linarith),
          if_neg (by push_neg; linarith)]
  · intro v h
    rcases h with ⟨h1, h2⟩ | ⟨h1, h2⟩ | ⟨h1, h2⟩ <;>
      · simp only [score_renal]
        rw [if_neg (by push_neg; linarith),
          if_neg (by rintro ⟨a, b⟩; linarith),
          if_neg (by rintro ⟨a, b⟩; linarith),
          if_neg (by rintro ⟨a, b⟩; linarith),
          if_neg (by push_neg; linarith)]
  · intro v h
    rcases h with ⟨h1, h2⟩ | h1 | ⟨h1, h2⟩ | ⟨h1, h2⟩ <;>
      · simp only [score_cns]
        rw [if_neg (by rintro rfl; linarith),
          if_neg (by rintro ⟨a, b⟩; linarith),
          if_neg (by rintro ⟨a, b⟩; linarith),
          if_neg (by rintro ⟨a, b⟩; linarith),
          if_neg (by push_neg; linarith)]
  · intro support
    norm_num [score_resp]
  · norm_num [score_liver]
  · norm_num [score_renal]

/-- C8 witness: the out-of-band characterization applied at the claim's
own example inputs — bilirubin 1.95 and creatinine 3.45 (each in a gap). -/
theorem C8_out_of_band_witness :
    ((1.9 : ℚ) < 1.95 ∧ (1.95 : ℚ) < 2.0) ∧ score_liver (some 1.95) = none
    ∧ ((3.4 : ℚ) < 3.45 ∧ (3.45 : ℚ) < 3.5) ∧ score_renal (some 3.45) = none
    ∧ score_cns (some 14.5) = none :=
  ⟨⟨by norm_num, by norm_num⟩,
   C8_out_of_band_unknown.1 1.95 (Or.inl ⟨by norm_num, by norm_num⟩),
   ⟨by norm_num, by norm_num⟩,
   C8_out_of_band_unknown.2.1 3.45 (Or.inr (Or.inl ⟨by norm_num, by norm_num⟩)),
   C8_out_of_band_unknown.2.2.1 14.5 (Or.inl ⟨by norm_num, by norm_num⟩)⟩

/-- Fold invariant for the `latest_within` loop: the accumulator is always
a qualifying record from the processed part of the list with the maximum
qualifying timestamp, and is `none` exactly when no processed record
qualifies. -/
theorem lwFold_spec (ws t : ℤ) :
    ∀ (l : List (ℤ × ℚ)) (acc : Option (ℤ × ℚ)),
      (∀ p, acc = some p → ws ≤ p.1 ∧ p.1 ≤ t) →
      (match l.foldl (lwStep ws t) acc with
       | none => acc = none ∧ ∀ q ∈ l, ¬(ws ≤ q.1 ∧ q.1 ≤ t)
       | some p => (ws ≤ p.1 ∧ p.1 ≤ t) ∧ (acc = some p ∨ p ∈ l) ∧
           (∀ q ∈ l, ws ≤ q.1 → q.1 ≤ t → q.1 ≤ p.1) ∧
           (∀ q, acc = some q → q.1 ≤ p.1)) := by
  intro l
  induction l with
  | nil =>
    intro acc hacc
    cases acc with
    | none => exact ⟨rfl, by simp⟩
    | some p =>
      exact ⟨hacc p rfl, Or.inl rfl, by simp,
        fun q hq => by cases hq; exact le_refl _⟩
  | cons r rs ih =>
    intro acc hacc
    have hstep : ∀ p, lwStep ws t acc r = some p → ws ≤ p.1 ∧ p.1 ≤ t := by
      intro p hp
      by_cases hW : ws ≤ r.1 ∧ r.1 ≤ t
      · cases acc with
        | none =>
          simp only [lwStep, if_pos hW] at hp
          cases hp; exact hW
        | some lp =>
          simp only [lwStep, if_pos hW] at hp
          by_cases hlt : lp.1 < r.1
          · rw [if_pos hlt] at hp; cases hp; exact hW
          · rw [if_neg hlt] at hp; exact hacc p hp
      · simp only [lwStep, if_neg hW] at hp
        exact hacc p hp
    have hout : List.foldl (lwStep ws t) acc (r :: rs) =
        List.foldl (lwStep ws t) (lwStep ws t acc r) rs := rfl
    rw [hout]
    have ihres := ih (lwStep ws t acc r) hstep
    -- relate step results back
    rcases hfold : List.foldl (lwStep ws t) (lwStep ws t acc r) rs with _ | p
    · rw [hfold] at ihres
      obtain ⟨hacc', hrs⟩ := ihres
      by_cases hW : ws ≤ r.1 ∧ r.1 ≤ t
      · exfalso
        cases acc with
        | none => simp [lwStep, if_pos hW] at hacc'
        | some lp =>
          simp only [lwStep, if_pos hW] at hacc'
          by_cases hlt : lp.1 < r.1
          · rw [if_pos hlt] at hacc'; cases hacc'
          · rw [if_neg hlt] at hacc'; cases hacc'
      · have haccn : acc = none := by
          simp only [lwStep, if_neg hW] at hacc'; exact hacc'
        refine ⟨haccn, ?_⟩
        intro q hq
        rcases List.mem_cons.mp hq with rfl | hq
        · exact hW
        · exact hrs q hq
    · rw [hfold] at ihres
      obtain ⟨hWp, hmem, hmax, haccle⟩ := ihres
      have hsle : ∀ q, acc = some q → q.1 ≤ p.1 := by
        intro q hq
        by_cases hW : ws ≤ r.1 ∧ r.1 ≤ t
        · cases acc with
          | none => cases hq
          | some lp =>
            cases hq
            simp only [lwStep, if_pos hW] at haccle
            by_cases hlt : q.1 < r.1
            · rw [if_pos hlt] at haccle
              have := haccle r rfl
              linarith
            · rw [if_neg hlt] at haccle
              exact haccle q rfl
        · apply haccle
          simp only [lwStep, if_neg hW]
          rw [hq]
    -- refine goal
      refine ⟨hWp, ?_, ?_, hsle⟩
      · rcases hmem with hm | hm
        · by_cases hW : ws ≤ r.1 ∧ r.1 ≤ t
          · cases acc with
            | none =>
              simp only [lwStep, if_pos hW] at hm
              cases hm
              exact Or.inr (List.mem_cons_self _ _)
            | some lp =>
              simp only [lwStep, if_pos hW] at hm
              by_cases hlt : lp.1 < r.1
              · rw [if_pos hlt] at hm
                cases hm
                exact Or.inr (List.mem_cons_self _ _)
              · rw [if_neg hlt] at hm
                exact Or.inl hm
          · simp only [lwStep, if_neg hW] at hm
            exact Or.inl hm
        · exact Or.inr (List.mem_cons_of_mem _ hm)
      · intro q hq hq1 hq2
        rcases List.mem_cons.mp hq with rfl | hq
        · -- head case: q.1 is at most the step accumulator's time, which is at most p.1
          have hWq : ws ≤ q.1 ∧ q.1 ≤ t := ⟨hq1, hq2⟩
          cases acc with
          | none =>
            have := haccle q (by simp [lwStep, if_pos hWq])
            exact this
          | some lp =>
            simp only [lwStep, if_pos hWq] at haccle
            by_cases hlt : lp.1 < q.1
            · rw [if_pos hlt] at haccle
              exact haccle q rfl
            · rw [if_neg hlt] at haccle
              have := haccle lp rfl
              push_neg at hlt
              linarith
        · exact hmax q hq hq1 hq2

/-- C2: `latest_within` returns the value paired with the maximum
timestamp among pairs in the closed window `[t - w hours, t]`, and `none`
when no pair lies in the window; with w = 6 a pair at t - 5h59m (21540 s)
qualifies and a pair at t - 6h01m (21660 s) does not. -/
theorem C2_latest_within :
    (∀ (l : List (ℤ × ℚ)) (t w : ℤ),
      (latest_within l t w = none ↔
        ∀ q ∈ l, ¬(t - 3600 * w ≤ q.1 ∧ q.1 ≤ t)) ∧
      (∀ v, latest_within l t w = some v →
        ∃ r, (r, v) ∈ l ∧ (t - 3600 * w ≤ r ∧ r ≤ t) ∧
          ∀ q ∈ l, t - 3600 * w ≤ q.1 → q.1 ≤ t → q.1 ≤ r))
    ∧ (∀ (t : ℤ) (v : ℚ), latest_within [(t - 21540, v)] t 6 = some v)
    ∧ (∀ (t : ℤ) (v : ℚ), latest_within [(t - 21660, v)] t 6 = none) := by
  refine ⟨?_, ?_, ?_⟩
  · intro l t w
    have hspec := lwFold_spec (t - 3600 * w) t l none (fun p h => by cases h)
    constructor
    · rw [latest_within, Option.map_eq_none']
      constructor
      · intro hn
        rw [hn] at hspec
        exact hspec.2
      · intro hq
        rcases hfold : List.foldl (lwStep (t - 3600 * w) t) none l with _ | p
        · rfl
        · rw [hfold] at hspec
          have hpl : p ∈ l :=
            hspec.2.1.resolve_left (fun h => Option.noConfusion h)
          exact absurd hspec.1 (hq p hpl)
    · intro v hv
      rw [latest_within] at hv
      rcases hfold : List.foldl (lwStep (t - 3600 * w) t) none l with _ | p
      · rw [hfold] at hv; cases hv
      · rw [hfold] at hv
        have hv2 : p.2 = v := by simpa using hv
        rw [hfold] at hspec
        obtain ⟨hW, hmem, hmax, -⟩ := hspec
        have hpl : p ∈ l := hmem.resolve_left (fun h => Option.noConfusion h)
        refine ⟨p.1, ?_, hW, hmax⟩
        rw [← hv2]
        simpa using hpl
  · intro t v
    simp only [latest_within, List.foldl_cons, List.foldl_nil, lwStep]
    rw [if_pos (by constructor <;> omega)]
    rfl
  · intro t v
    simp only [latest_within, List.foldl_cons, List.foldl_nil, lwStep]
    rw [if_neg (by intro h; omega)]
    rfl

/-! ### Sub-score range lemmas (every known sub-score lies in 0..4) -/

theorem score_resp_range (pf sf : Option ℚ) (b : Bool) (n : ℤ)
    (h : score_resp pf sf b = some n) : 0 ≤ n ∧ n ≤ 4 := by
  cases pf with
  | some v =>
    simp only [score_resp] at h
    split_ifs at h <;>
      (simp only [Option.some.injEq] at h; omega)
  | none =>
    cases sf with
    | none => cases h
    | some s =>
      simp only [score_resp] at h
      split_ifs at h <;>
        (simp only [Option.some.injEq] at h; omega)

theorem score_coag_range (x : Option ℚ) (n : ℤ) (h : score_coag x = some n) :
    0 ≤ n ∧ n ≤ 4 := by
  cases x with
  | none => cases h
  | some v =>
    simp only [score_coag] at h
    split_ifs at h <;>
      (simp only [Option.some.injEq] at h; omega)

theorem score_liver_range (x : Option ℚ) (n : ℤ) (h : score_liver x = some n) :
    0 ≤ n ∧ n ≤ 4 := by
  cases x with
  | none => cases h
  | some v =>
    simp only [score_liver] at h
    split_ifs at h <;>
      (simp only [Option.some.injEq] at h; omega)

theorem score_cardio_range (m : Option ℚ) (p : Option Pressor) (n : ℤ)
    (h : score_cardio m p = some n) : 0 ≤ n ∧ n ≤ 4 := by
  cases p with
  | none =>
    cases m with
    | none => cases h
    | some mv =>
      simp only [score_cardio] at h
      split_ifs at h <;> (simp only [Option.some.injEq] at h; omega)
  | some pr =>
    rcases pr with ⟨dob, dop, ne, epi⟩
    cases dob with
    | some dv =>
      simp only [score_cardio, Option.some.injEq] at h
      omega
    | none =>
      cases m with
      | none =>
        simp only [score_cardio] at h
        split_ifs at h <;>
          (simp only [Option.some.injEq] at h; omega)
      | some mv =>
        simp only [score_cardio] at h
        split_ifs at h <;>
          (simp only [Option.some.injEq] at h; omega)

theorem score_cns_range (x : Option ℚ) (n : ℤ) (h : score_cns x = some n) :
    0 ≤ n ∧ n ≤ 4 := by
  cases x with
  | none => cases h
  | some v =>
    simp only [score_cns] at h
    split_ifs at h <;>
      (simp only [Option.some.injEq] at h; omega)

theorem score_renal_range (x : Option ℚ) (n : ℤ) (h : score_renal x = some n) :
    0 ≤ n ∧ n ≤ 4 := by
  cases x with
  | none => cases h
  | some v =>
    simp only [score_renal] at h
    split_ifs at h <;>
      (simp only [Option.some.injEq] at h; omega)

/-- C2 witness: the characterization applied at concrete inputs — a
single in-window record, and the empty series. -/
theorem C2_latest_within_witness :
    latest_within [((0 : ℤ), (5 : ℚ))] 0 6 = some 5
    ∧ (∃ r, (r, (5 : ℚ)) ∈ [((0 : ℤ), (5 : ℚ))] ∧
        ((0 : ℤ) - 3600 * 6 ≤ r ∧ r ≤ 0) ∧
        ∀ q ∈ [((0 : ℤ), (5 : ℚ))], (0 : ℤ) - 3600 * 6 ≤ q.1 → q.1 ≤ 0 → q.1 ≤ r)
    ∧ latest_within ([] : List (ℤ × ℚ)) 0 6 = none :=
  ⟨rfl, ((C2_latest_within.1 _ 0 6).2 5 rfl),
   ((C2_latest_within.1 [] 0 6).1).mpr (fun q hq => by cases hq)⟩

/-! ## Metric-extractor claim (C3) -/

/-- The canonical metric names: the values of `LOINC_MAP` and the keys of
`DISPLAY_KEYWORDS`. -/
def canonicalMetrics : List String :=
  ["PaO2", "FiO2", "SpO2", "MAP", "Platelets", "Bilirubin", "Creatinine",
   "GCS"]

theorem keywordMetric_canonical (t : List Char) (m : String)
    (h : keywordMetric t = some m) : m ∈ canonicalMetrics := by
  unfold keywordMetric at h
  rcases hf : DISPLAY_KEYWORDS.find?
      (fun p => p.2.any fun k => hasSub k.data t) with _ | p
  · rw [hf] at h
    cases h
  · rw [hf] at h
    have hp := List.mem_of_find?_eq_some hf
    have hall : ∀ q ∈ DISPLAY_KEYWORDS, q.1 ∈ canonicalMetrics := by decide
    have hm : m = p.1 := by simpa using h.symm
    rw [hm]
    exact hall p hp

theorem lookupLoinc_canonical (c m : String) (h : lookupLoinc c = some m) :
    m ∈ canonicalMetrics := by
  unfold lookupLoinc at h
  rcases hf : LOINC_MAP.find? (fun p => p.1 == c) with _ | p
  · rw [hf] at h
    cases h
  · rw [hf] at h
    have hp := List.mem_of_find?_eq_some hf
    have hall : ∀ q ∈ LOINC_MAP, q.2 ∈ canonicalMetrics := by decide
    have hm : m = p.2 := by simpa using h.symm
    rw [hm]
    exact hall p hp

theorem classifyMetric_canonical (code : Option String) (t : List Char)
    (m : String) (h : classifyMetric code t = some m) :
    m ∈ canonicalMetrics := by
  unfold classifyMetric at h
  cases code with
  | none => exact keywordMetric_canonical t m h
  | some c =>
    have h2 : (match lookupLoinc c with
        | some m0 => some m0
        | none => keywordMetric t) = some m := h
    rcases hl : lookupLoinc c with _ | m0
    · rw [hl] at h2
      exact keywordMetric_canonical t m h2
    · rw [hl] at h2
      have hm : m = m0 := by simpa using h2.symm
      rw [hm]
      exact lookupLoinc_canonical c m0 hl

/-- Every row the extractor emits carries a canonical metric name — never
a raw LOINC code. -/
theorem obs_row_metric_canonical (o : RawObs) (r : FhirRow)
    (h : _obs_entry_to_row o = some r) : r.metric ∈ canonicalMetrics := by
  unfold _obs_entry_to_row at h
  simp only [Option.bind_eq_some] at h
  obtain ⟨m, hm, h⟩ := h
  obtain ⟨v, hv, h⟩ := h
  obtain ⟨t, ht, h⟩ := h
  split_ifs at h
  simp only [Option.bind_eq_some] at h
  obtain ⟨dt, hdt, h⟩ := h
  cases h
  exact classifyMetric_canonical _ _ _ hm

/-- A systolic blood-pressure Observation (LOINC 8480-6, value 120) at
2021-03-04T05:06:07Z. -/
def sysObs120 : RawObs :=
  ⟨[(some "8480-6", some "Systolic Blood Pressure")], none, some 120,
    some "mmHg", none, some "2021-03-04T05:06:07Z", none⟩

/-- A diastolic blood-pressure Observation (LOINC 8462-4, value 80) two
minutes later — inside the 5-minute pairing tolerance. -/
def diaObs80 : RawObs :=
  ⟨[(some "8462-4", some "Diastolic Blood Pressure")], none, some 80,
    some "mmHg", none, some "2021-03-04T05:08:07Z", none⟩

/-- C3: the derived-MAP branch is dead code. Its condition tests the
canonical `metric` column against the raw LOINC codes `'8480-6'` /
`'8462-4'`, which the extractor never emits, so `observations_to_df`
always returns the plainly extracted rows and never appends a
synthesized MAP; on the claim's own example — systolic 120 with a
diastolic 80 two minutes later — both records fail to classify and the
output is empty, with no MAP observation of value (120+2·80)/3. -/
theorem C3_derived_map_dead_code :
    (∀ obs : List RawObs,
      observations_to_df obs = obs.filterMap _obs_entry_to_row)
    ∧ observations_to_df [sysObs120, diaObs80] = ([] : List FhirRow) := by
  constructor
  · intro obs
    have hnone : ∀ r ∈ obs.filterMap _obs_entry_to_row,
        ¬(r.metric = "8480-6" ∨ r.metric = "8462-4") := by
      intro r hr
      obtain ⟨o, ho, he⟩ := List.mem_filterMap.mp hr
      have hc := obs_row_metric_canonical o r he
      rintro (h8 | h8) <;> (rw [h8] at hc; revert hc; decide)
    unfold observations_to_df
    rw [if_neg (fun hT => by
      obtain ⟨r, hr, hrp⟩ := List.any_eq_true.mp hT
      exact hnone r hr (of_decide_eq_true hrp))]
  · rfl

/-! ## Time-parsing claim (C9) -/

/-- C9 counterexample: the claim says `parse_time` never raises to the
caller for *every* input string, but the bare `except:` handler re-runs
`fromisoformat`, which itself raises on an unparseable string — modelled
as a `none` result escaping the function. On the input `"garbage"` both
the primary parse and the fallback fail, so the exception propagates. -/
theorem C9_parse_time_counterexample :
    parse_time "garbage" = none
    ∧ fromisoformat ⟨replaceZ "garbage".data⟩ = none := by
  constructor <;> decide

/-- C9 amended: `parse_time` fails (raises to the caller) exactly on the
strings the generic offset-aware fallback parser cannot parse; a
well-formed string ending in the literal UTC marker is parsed as UTC by
the primary format, any other string is handed to the offset-aware
parser, and a primary-parse failure falls back to the offset-aware
parser instead of propagating. -/
theorem C9_parse_time_amended :
    (∀ ts : String, parse_time ts = none →
      fromisoformat ⟨replaceZ ts.data⟩ = none)
    ∧ (∀ (ts : String) (dt : DateTimeM),
      endsWithZ ts = true → strptimeIsoZ ts = some dt →
      parse_time ts = some (utcify dt))
    ∧ (∀ ts : String, endsWithZ ts = false →
      parse_time ts = fromisoformat ⟨replaceZ ts.data⟩)
    ∧ parse_time "2021-03-04T05:06:07Z" =
        some ⟨2021, 3, 4, 5, 6, 7, some 0⟩
    ∧ (utcify ⟨2021, 3, 4, 5, 6, 7, none⟩).tzOffsetMin = some 0 := by
  refine ⟨?_, ?_, ?_, by decide, by decide⟩
  · intro ts h
    unfold parse_time at h
    rcases hq : (if endsWithZ ts then (strptimeIsoZ ts).map utcify
        else fromisoformat ⟨replaceZ ts.data⟩) with _ | dt
    · rw [hq] at h
      exact h
    · rw [hq] at h
      cases h
  · intro ts dt h1 h2
    unfold parse_time
    rw [h1, if_pos rfl, h2, Option.map_some']
  · intro ts h
    unfold parse_time
    rw [h]
    rcases hq : fromisoformat ⟨replaceZ ts.data⟩ with _ | dt <;>
      simp [hq]

/-- C9 witness: the amended theorem applied at a well-formed Zulu string,
at a non-Zulu string, and at the failing input. -/
theorem C9_parse_time_witness :
    (endsWithZ "2021-03-04T05:06:07Z" = true ∧
      strptimeIsoZ "2021-03-04T05:06:07Z" = some ⟨2021, 3, 4, 5, 6, 7, none⟩ ∧
      parse_time "2021-03-04T05:06:07Z" =
        some (utcify ⟨2021, 3, 4, 5, 6, 7, none⟩))
    ∧ (endsWithZ "2021-03-04T05:06:07+01:00" = false ∧
      parse_time "2021-03-04T05:06:07+01:00" =
        fromisoformat ⟨replaceZ "2021-03-04T05:06:07+01:00".data⟩)
    ∧ (parse_time "garbage" = none ∧
      fromisoformat ⟨replaceZ "garbage".data⟩ = none) :=
  ⟨⟨by decide, by decide,
      C9_parse_time_amended.2.1 "2021-03-04T05:06:07Z"
        ⟨2021, 3, 4, 5, 6, 7, none⟩ (by decide) (by decide)⟩,
   ⟨by decide,
      C9_parse_time_amended.2.2.1 "2021-03-04T05:06:07+01:00" (by decide)⟩,
   ⟨by decide, C9_parse_time_amended.1 "garbage" (by decide)⟩⟩

/-! ## Orchestrator claims (C1, C7, C10) -/

/-- Concrete patient data, all six systems determinable at t = 0: PaO2 84
with no FiO2 observation (default 0.21) gives pf = 400; MAP 80, platelets
200, bilirubin 1, creatinine 1; GCS absent defaults to 15. -/
def demoAllKnown : PatientData :=
  ⟨[(0, 84)], [], [], [(0, 80)], [(0, 200)], [(0, 1)], [(0, 1)], [],
    fun _ => none⟩

/-- Concrete patient data with no observations and no infusions at all. -/
def demoEmpty : PatientData :=
  ⟨[], [], [], [], [], [], [], [], fun _ => none⟩

/-- Concrete patient data whose FiO2 series holds the fraction 0.35. -/
def demoFio2Frac : PatientData :=
  ⟨[(0, 84)], [], [(0, 0.35)], [], [], [], [], [], fun _ => none⟩

/-- C1: per candidate timestamp — any unknown sub-score discards the row;
at least 3 unknown additionally reports the diagnostic naming the missing
systems while still discarding the row; all six known emits exactly one
row whose total is the sum of the six sub-scores, which lies in 0..24. -/
theorem C1_completeness :
    ∀ (d : PatientData) (W t : ℤ),
      ((∃ c ∈ subScores d W t, c.2 = none) → (sofaAt d W t).1 = none)
      ∧ (3 ≤ (missingSystems d W t).length →
          (sofaAt d W t).2 = some (missingSystems d W t) ∧
            (sofaAt d W t).1 = none)
      ∧ ((∀ c ∈ subScores d W t, c.2 ≠ none) →
          (sofaAt d W t).1 =
              some (t, ((subScores d W t).filterMap Prod.snd).sum) ∧
            (sofaAt d W t).2 = none ∧
            0 ≤ ((subScores d W t).filterMap Prod.snd).sum ∧
            ((subScores d W t).filterMap Prod.snd).sum ≤ 24) := by
  intro d W t
  refine ⟨?_, ?_, ?_⟩
  · rintro ⟨c, hc, hnone⟩
    have hany : (subScores d W t).any (fun c => c.2.isNone) = true :=
      List.any_eq_true.mpr ⟨c, hc, by rw [hnone]; rfl⟩
    simp only [sofaAt, hany, if_true]
  · intro hlen
    have hne : missingSystems d W t ≠ [] := by
      intro he
      rw [he] at hlen
      simp at hlen
    have hany : (subScores d W t).any (fun c => c.2.isNone) = true := by
      by_contra hb
      rw [Bool.not_eq_true] at hb
      apply hne
      simp only [missingSystems]
      rw [List.map_eq_nil_iff, List.filter_eq_nil_iff]
      exact List.any_eq_false.mp hb
    constructor
    · simp only [sofaAt, hany, if_true]
      rw [if_pos hlen]
    · simp only [sofaAt, hany, if_true]
  · intro h
    simp only [subScores, List.forall_mem_cons] at h
    obtain ⟨h1, h2, h3, h4, h5, h6, -⟩ := h
    obtain ⟨r1, e1⟩ := Option.ne_none_iff_exists'.mp h1
    obtain ⟨r2, e2⟩ := Option.ne_none_iff_exists'.mp h2
    obtain ⟨r3, e3⟩ := Option.ne_none_iff_exists'.mp h3
    obtain ⟨r4, e4⟩ := Option.ne_none_iff_exists'.mp h4
    obtain ⟨r5, e5⟩ := Option.ne_none_iff_exists'.mp h5
    obtain ⟨r6, e6⟩ := Option.ne_none_iff_exists'.mp h6
    have b1 := score_resp_range _ _ _ _ e1
    have b2 := score_coag_range _ _ e2
    have b3 := score_liver_range _ _ e3
    have b4 := score_cardio_range _ _ _ e4
    have b5 := score_cns_range _ _ e5
    have b6 := score_renal_range _ _ e6
    have hany : (subScores d W t).any (fun c => c.2.isNone) = false := by
      simp only [subScores, List.any_cons, List.any_nil, e1, e2, e3, e4, e5,
        e6, Option.isNone_some, Bool.or_self, Bool.or_false]
    have hfm : (subScores d W t).filterMap Prod.snd = [r1, r2, r3, r4, r5, r6] := by
      simp only [subScores, List.filterMap_cons, List.filterMap_nil, e1, e2,
        e3, e4, e5, e6]
    refine ⟨?_, ?_, ?_, ?_⟩
    · simp only [sofaAt, hany, Bool.false_eq_true, if_false]
    · simp only [sofaAt, hany, Bool.false_eq_true, if_false]
    · rw [hfm]
      simp only [List.sum_cons, List.sum_nil]
      omega
    · rw [hfm]
      simp only [List.sum_cons, List.sum_nil]
      omega

/-- C1 witness: with `demoAllKnown` every sub-score is known and a row is
emitted; with `demoEmpty` five of six sub-scores are unknown (CNS is 0 via
the GCS default), so the diagnostic fires and no row is emitted. -/
theorem C1_completeness_witness :
    ((∀ c ∈ subScores demoAllKnown 6 0, c.2 ≠ none) ∧
      (sofaAt demoAllKnown 6 0).1 =
        some (0, ((subScores demoAllKnown 6 0).filterMap Prod.snd).sum))
    ∧ (3 ≤ (missingSystems demoEmpty 6 0).length ∧
      (sofaAt demoEmpty 6 0).2 = some (missingSystems demoEmpty 6 0) ∧
      (sofaAt demoEmpty 6 0).1 = none) := by
  have hsub : subScores demoAllKnown 6 0 =
      [("Resp", some 0), ("Coag", some 0), ("Liver", some 0),
        ("Cardio", some 0), ("CNS", some 0), ("Renal", some 0)] := by
    norm_num [subScores, pfRatio, sfRatio, fio2Used, gcsUsed, latest_within,
      lwStep, demoAllKnown, DEFAULT_FIO2, score_resp, score_coag, score_liver,
      score_cardio, score_cns, score_renal, List.foldl_cons, List.foldl_nil]
  have hk : ∀ c ∈ subScores demoAllKnown 6 0, c.2 ≠ none := by
    intro c hc
    rw [hsub] at hc
    simp only [List.mem_cons, List.not_mem_nil, or_false] at hc
    rcases hc with rfl | rfl | rfl | rfl | rfl | rfl <;> simp
  have hmiss : missingSystems demoEmpty 6 0 =
      ["Resp", "Coag", "Liver", "Cardio", "Renal"] := by
    norm_num [missingSystems, subScores, pfRatio, sfRatio, fio2Used, gcsUsed,
      latest_within, lwStep, demoEmpty, DEFAULT_FIO2, score_resp, score_coag,
      score_liver, score_cardio, score_cns, score_renal, List.foldl_nil,
      List.filter_cons]
  have hl : 3 ≤ (missingSystems demoEmpty 6 0).length := by
    rw [hmiss]
    norm_num
  exact ⟨⟨hk, ((C1_completeness demoAllKnown 6 0).2.2 hk).1⟩,
    hl, (C1_completeness demoEmpty 6 0).2.1 hl⟩

/-- C7: when no GCS observation is in the look-back window the
orchestrator substitutes 15 before calling `score_cns` (which maps 15 to
0), so the CNS component of the assembled bundle is 0 rather than
unknown; the substitution lives in the orchestrator, not in `score_cns`,
which still maps a missing value to unknown. -/
theorem C7_gcs_default :
    (∀ (d : PatientData) (W t : ℤ), latest_within d.gcs t W = none →
      gcsUsed d W t = 15 ∧
      score_cns (some (gcsUsed d W t)) = some 0 ∧
      ("CNS", score_cns (some (gcsUsed d W t))) ∈ subScores d W t)
    ∧ score_cns none = none := by
  constructor
  · intro d W t h
    have hg : gcsUsed d W t = 15 := by simp [gcsUsed, h]
    refine ⟨hg, ?_, ?_⟩
    · rw [hg]
      simp [score_cns]
    · simp [subScores]
  · rfl

/-- C7 witness: the default applied to a patient with no GCS data. -/
theorem C7_gcs_default_witness :
    latest_within demoEmpty.gcs 0 6 = none
    ∧ gcsUsed demoEmpty 6 0 = 15
    ∧ score_cns (some (gcsUsed demoEmpty 6 0)) = some 0 :=
  ⟨rfl, (C7_gcs_default.1 demoEmpty 6 0 rfl).1,
    (C7_gcs_default.1 demoEmpty 6 0 rfl).2.1⟩

/-- C10: whenever an FiO2 observation is in the window, the orchestrator
normalizes it with the unit hard-coded to `"%"`, so the stored raw value
is always divided by 100; the observation's own unit is not consulted —
indeed the unit column is dropped when the per-metric series is built, so
changing every unit leaves the series unchanged; an FiO2 recorded as the
fraction 0.35 enters the pf computation as 0.0035. -/
theorem C10_fio2_percent_hardcoded :
    (∀ (d : PatientData) (W t : ℤ) (v : ℚ),
      latest_within d.fio2 t W = some v → fio2Used d W t = v / 100)
    ∧ (∀ (rows : List ObsRow) (m : String) (u : Option String),
      seriesFor m
          (rows.map (fun r => ObsRow.mk r.metric r.value u r.effective)) =
        seriesFor m rows)
    ∧ fio2Used demoFio2Frac 6 0 = 0.35 / 100
    ∧ pfRatio demoFio2Frac 6 0 = some (84 / (0.35 / 100)) := by
  have hpct : isPercentUnit (some "%") = true := by decide
  refine ⟨?_, ?_, ?_, ?_⟩
  · intro d W t v h
    simp only [fio2Used, h, normFio2Val, hpct, if_true]
  · intro rows m u
    induction rows with
    | nil => rfl
    | cons r rs ih =>
      simp only [seriesFor, List.map_cons, List.filter_cons] at ih ⊢
      by_cases hm : r.metric = m
      · rw [if_pos (decide_eq_true hm), if_pos (decide_eq_true hm),
          List.map_cons, List.map_cons]
        exact congrArg (List.cons (r.effective, r.value)) ih
      · rw [if_neg (by simpa using hm), if_neg (by simpa using hm)]
        exact ih
  · have hlw : latest_within demoFio2Frac.fio2 0 6 = some 0.35 := rfl
    simp only [fio2Used, hlw, normFio2Val, hpct, if_true]
  · have hlw : latest_within demoFio2Frac.pao2 0 6 = some 84 := rfl
    have hf : fio2Used demoFio2Frac 6 0 = 0.35 / 100 := by
      have hlw2 : latest_within demoFio2Frac.fio2 0 6 = some 0.35 := rfl
      simp only [fio2Used, hlw2, normFio2Val, hpct, if_true]
    simp only [pfRatio, hlw, hf]
    rw [if_pos (by norm_num)]

/-- C10 witness: the hard-coded percent normalization applied to the
patient whose FiO2 series stores the fraction 0.35. -/
theorem C10_fio2_percent_witness :
    latest_within demoFio2Frac.fio2 0 6 = some 0.35
    ∧ fio2Used demoFio2Frac 6 0 = 0.35 / 100 :=
  ⟨rfl, C10_fio2_percent_hardcoded.1 demoFio2Frac 6 0 0.35 rfl⟩

end SOFA
